import Mathlib

/-!
# StatApp: verification of the statistical-summary and regression pipeline

Shallow embedding of the StatApp sources (`app.py`, `sections/upload.py`,
`sections/univariate.py`, `sections/bivariate.py`, `sections/regression.py`,
`utils/data_io.py`, `utils/plotting.py`).

Modelling conventions:
* a cell of a numeric column is `Option ℚ` (`none` = missing / NaN);
* a pandas `DataFrame` is a list of named columns whose cells are aligned
  by position;
* each Streamlit call (`st.error`, `st.warning`, `st.table`, figures, ...)
  appends a `DisplayItem`; `st.stop()` and an uncaught Python exception
  both abort the script run, which the embedding records explicitly;
* external library behaviour that the sources rely on (pandas CSV parsing,
  the spreadsheet engines) is kept abstract as oracle parameters, except
  where the sources themselves pin it down (e.g. the comment in
  `data_io.py` that openpyxl serves `.xlsx` and xlrd would be needed for
  `.xls`), in which case it is modelled concretely from those words.
-/

namespace StatApp

/-- One cell of a numeric column: a rational value, or missing (NaN). -/
abbrev NumCell := Option ℚ

/-- Column payload: numeric (the only kind the analysis sections consume)
or non-numeric (e.g. strings); `select_dtypes(include="number")` keys on
this distinction. -/
inductive ColumnData where
  | numeric (cells : List NumCell)
  | textual (cells : List (Option String))
  deriving Repr, DecidableEq

/-- A named column of a data frame. -/
structure Column where
  name : String
  data : ColumnData
  deriving Repr, DecidableEq

/-- A pandas `DataFrame`: ordered named columns, rows aligned by position. -/
structure DataFrame where
  cols : List Column
  deriving Repr, DecidableEq

/-- `df.shape[0]`: number of rows (length of the first column;
all columns are position-aligned). -/
def DataFrame.numRows (df : DataFrame) : Nat :=
  match df.cols with
  | [] => 0
  | c :: _ =>
    match c.data with
    | .numeric cells => cells.length
    | .textual cells => cells.length

/-- `utils/data_io.py::numeric_cols`: names of the numeric columns
(`df.select_dtypes(include="number").columns.tolist()`). -/
def numeric_cols (df : DataFrame) : List String :=
  (df.cols.filter (fun c => match c.data with
    | .numeric _ => true
    | .textual _ => false)).map Column.name

/-- Look up the cells of a numeric column by name (first match),
as `df[col]` does for a numeric column. -/
def DataFrame.getNumeric (df : DataFrame) (name : String) : Option (List NumCell) :=
  match df.cols.find? (fun c => c.name = name) with
  | some c =>
    match c.data with
    | .numeric cells => some cells
    | .textual _ => none
  | none => none

/-- The value shown in one cell of a statistics table.  `nan` is pandas'
NaN (what `describe`, `skew`, `kurt` yield on degenerate input); `rat` is
an exactly rational statistic; `irr` stands for a real-valued statistic
whose value involves a square root (sample std, skewness, kurtosis) — it
is determined by, and recorded with, the data it is computed from. -/
inductive StatValue where
  | nan
  | rat (q : ℚ)
  | irr (tag : String) (xs : List ℚ)
  deriving Repr, DecidableEq

/-- One rendered Streamlit element.  Payloads record only the data the
claims speak about; free-text arguments are kept as strings. -/
inductive DisplayItem where
  | header (s : String)
  | subheader (s : String)
  | markdown (s : String)
  | successMsg (s : String)
  | infoMsg (s : String)
  | warningMsg (s : String)
  | errorMsg (s : String)
  | preview (df : DataFrame)
  | statsTable (rows : List (String × StatValue))
  | fitMetricsTable (rsquared rsquaredAdj : ℚ) (nobs dfResid : Nat)
  | coefTable (terms : List (String × ℚ))
  | corrStats (n : Nat)
  | figure (tag : String)
  | summaryText
  deriving Repr, DecidableEq

/-- Classify display items: true for the table/figure outputs of a model
fit (fit metrics, coefficients, diagnostics plots, text summary). -/
def DisplayItem.isModelOutput : DisplayItem → Bool
  | .fitMetricsTable _ _ _ _ => true
  | .coefTable _ => true
  | .figure _ => true
  | .summaryText => true
  | _ => false

/-- True for `st.error` items. -/
def DisplayItem.isError : DisplayItem → Bool
  | .errorMsg _ => true
  | _ => false

/-- True for `st.warning` items. -/
def DisplayItem.isWarning : DisplayItem → Bool
  | .warningMsg _ => true
  | _ => false

/-!
## Section 1: upload (`sections/upload.py::render`, lines 49-59)

After `load_data` has produced a data frame, the section shows the
success banner and the preview, computes `numeric_cols`, and — when that
list is empty — calls `st.error` followed by `st.stop()`, aborting the
script run.  Otherwise it returns the frame and the column names.
-/

/-- Outcome of the post-load part of `upload.render`: either the script
run was aborted by `st.stop()`, or rendering finished and the frame plus
its numeric column names flow on to the later sections. -/
inductive UploadResult where
  | halted (display : List DisplayItem)
  | done (display : List DisplayItem) (df : DataFrame) (numCols : List String)
  deriving Repr, DecidableEq

/-- `sections/upload.py::render`, lines 49-59 (the part after `load_data`
returned `df`). -/
def uploadRender (df : DataFrame) : UploadResult :=
  let disp : List DisplayItem :=
    [.successMsg "Loaded rows x columns", .preview df]
  let cols := numeric_cols df
  if cols.isEmpty then
    .halted (disp ++ [.errorMsg "No numeric columns found. StatApp needs at least one numeric column."])
  else
    .done disp df cols

/-- True when the upload section did not abort the script run. -/
def UploadResult.continues : UploadResult → Bool
  | .halted _ => false
  | .done _ _ _ => true

/-- The display list produced by the upload section. -/
def UploadResult.display : UploadResult → List DisplayItem
  | .halted d => d
  | .done d _ _ => d

/-- A concrete frame with zero numeric columns: one textual column. -/
def dfNoNumeric : DataFrame :=
  ⟨[⟨"city", .textual [some "Lima", some "Quito"]⟩]⟩

/-!
## Data ingestion (`utils/data_io.py::load_data`)

An uploaded file is a name plus raw bytes plus a stream position (the
Streamlit `UploadedFile` is a seekable in-memory stream; `seek(0)` resets
the position before the second read attempt).  `pd.read_csv(f, encoding=e)`
is modelled as: decode the bytes from the current position with `e`, then
hand the decoded text to an abstract CSV-parsing oracle; a decode failure
is `UnicodeDecodeError`, exactly the exception class the source catches.
-/

/-- Python's `str.endswith`, on the character lists of the strings. -/
def strEndsWith (s suffix : String) : Bool :=
  suffix.data.isSuffixOf s.data

/-- ASCII lower-casing of one character (all extensions involved are
ASCII, so this matches Python's `str.lower` on them). -/
def lowerChar (c : Char) : Char :=
  if 'A' ≤ c ∧ c ≤ 'Z' then Char.ofNat (c.toNat + 32) else c

/-- Python's `str.lower`, on the character list of the string. -/
def strToLower (s : String) : String := ⟨s.data.map lowerChar⟩

/-- A Python exception raised by a pandas / openpyxl call. -/
inductive PdError where
  | unicodeDecodeError
  | parserError (msg : String)
  | valueError (msg : String)
  | badZipFile (msg : String)
  deriving Repr, DecidableEq

/-- An uploaded in-memory file: name, raw bytes, current stream position. -/
structure UploadedFile where
  name : String
  content : List Nat
  pos : Nat
  deriving Repr, DecidableEq

/-- `uploaded_file.seek(p)`. -/
def fileSeek (f : UploadedFile) (p : Nat) : UploadedFile :=
  { f with pos := p }

/-- Is `b` a UTF-8 continuation byte (`0x80..0xBF`)? -/
def contByte (b : Nat) : Bool := 0x80 ≤ b && b ≤ 0xBF

/-- Admissible second byte of a 3-byte UTF-8 sequence with lead `b`
(excludes overlong encodings and surrogates, per RFC 3629). -/
def second3 (b b1 : Nat) : Bool :=
  if b = 0xE0 then 0xA0 ≤ b1 && b1 ≤ 0xBF
  else if b = 0xED then 0x80 ≤ b1 && b1 ≤ 0x9F
  else contByte b1

/-- Admissible second byte of a 4-byte UTF-8 sequence with lead `b`
(excludes overlong encodings and code points above U+10FFFF). -/
def second4 (b b1 : Nat) : Bool :=
  if b = 0xF0 then 0x90 ≤ b1 && b1 ≤ 0xBF
  else if b = 0xF4 then 0x80 ≤ b1 && b1 ≤ 0x8F
  else contByte b1

/-- Decode a byte stream as UTF-8 (Python's strict `utf-8` codec):
`none` models `UnicodeDecodeError`, `some cps` the decoded code points. -/
def utf8Decode : List Nat → Option (List Nat)
  | [] => some []
  | b :: bs =>
    if b ≤ 0x7F then
      (utf8Decode bs).map (fun cs => b :: cs)
    else if 0xC2 ≤ b && b ≤ 0xDF then
      match bs with
      | b1 :: bs1 =>
        if contByte b1 then
          (utf8Decode bs1).map (fun cs => ((b - 0xC0) * 64 + (b1 - 0x80)) :: cs)
        else none
      | [] => none
    else if 0xE0 ≤ b && b ≤ 0xEF then
      match bs with
      | b1 :: b2 :: bs2 =>
        if second3 b b1 && contByte b2 then
          (utf8Decode bs2).map
            (fun cs => ((b - 0xE0) * 4096 + (b1 - 0x80) * 64 + (b2 - 0x80)) :: cs)
        else none
      | _ => none
    else if 0xF0 ≤ b && b ≤ 0xF4 then
      match bs with
      | b1 :: b2 :: b3 :: bs3 =>
        if second4 b b1 && contByte b2 && contByte b3 then
          (utf8Decode bs3).map
            (fun cs =>
              ((b - 0xF0) * 262144 + (b1 - 0x80) * 4096 + (b2 - 0x80) * 64 + (b3 - 0x80)) :: cs)
        else none
      | _ => none
    else none

/-- Decode a byte stream as Latin-1: total — every byte is a code point,
so Python's `latin-1` codec never raises `UnicodeDecodeError`. -/
def latin1Decode (bs : List Nat) : List Nat := bs

/-- Text encodings the source passes to `pd.read_csv`. -/
inductive Encoding where
  | utf8
  | latin1
  deriving Repr, DecidableEq

/-- Decode bytes under an encoding; UTF-8 may raise `UnicodeDecodeError`. -/
def decodeBytes : Encoding → List Nat → Except PdError (List Nat)
  | .utf8, bs =>
    match utf8Decode bs with
    | some cs => .ok cs
    | none => .error .unicodeDecodeError
  | .latin1, bs => .ok (latin1Decode bs)

/-- `pd.read_csv(uploaded_file, encoding=enc)`: reads from the current
stream position to the end (advancing the position), decoding with `enc`
and handing the text to the CSV-parsing oracle `parse`. -/
def read_csv (parse : List Nat → Except PdError DataFrame) (enc : Encoding)
    (f : UploadedFile) : Except PdError DataFrame × UploadedFile :=
  ((decodeBytes enc (f.content.drop f.pos)).bind parse,
   { f with pos := f.content.length })

/-- The spreadsheet engines named in `data_io.py`. -/
inductive Engine where
  | openpyxl
  deriving Repr, DecidableEq

/-- Does the content start with the zip magic bytes `PK` (`0x50 0x4B`)?
`.xlsx` workbooks are zip archives; legacy `.xls` files are OLE2 binaries
starting with `0xD0 0xCF 0x11 0xE0`, not a zip. -/
def isZipMagic : List Nat → Bool
  | 0x50 :: 0x4B :: _ => true
  | _ => false

/-- `pd.read_excel(uploaded_file, engine="openpyxl")`.  Modelled from the
source's own comment ("openpyxl is required for .xlsx; xlrd would be
needed for old .xls"): the openpyxl engine opens only zip-based `.xlsx`
workbooks and raises on non-zip content such as a legacy `.xls` binary.
The sheet-to-frame conversion itself stays abstract (`parseSheet`). -/
def read_excel (eng : Engine) (parseSheet : List Nat → Except PdError DataFrame)
    (f : UploadedFile) : Except PdError DataFrame :=
  match eng with
  | .openpyxl =>
    if isZipMagic (f.content.drop f.pos) then parseSheet (f.content.drop f.pos)
    else .error (.badZipFile "File is not a zip file")

/-- Outcome of `load_data`: a frame; an uncaught Python exception
(Streamlit displays it as an error and aborts the script run); or the
explicit `st.error` + `st.stop()` of the unsupported-extension branch. -/
inductive LoadResult where
  | ok (df : DataFrame)
  | raised (e : PdError)
  | unsupported
  deriving Repr, DecidableEq

/-- A returned `Except` becomes a `LoadResult`: errors propagate as
uncaught exceptions. -/
def liftRead : Except PdError DataFrame → LoadResult
  | .ok df => .ok df
  | .error e => .raised e

/-- Did ingestion produce a Dataset for the rest of the session? -/
def LoadResult.producesDataset : LoadResult → Bool
  | .ok _ => true
  | _ => false

/-- Does the script run halt at ingestion (uncaught exception or
`st.stop()`), so that no later section executes? -/
def LoadResult.halts : LoadResult → Bool
  | .ok _ => false
  | .raised _ => true
  | .unsupported => true

/-- `utils/data_io.py::load_data`.  Format is chosen by filename
extension; for `.csv` the first read uses UTF-8 and a
`UnicodeDecodeError` triggers `seek(0)` plus exactly one Latin-1 retry;
`.xlsx`/`.xls` delegate to `read_excel` with the openpyxl engine; any
other extension hits `st.error` + `st.stop()`. -/
def load_data (parseCsv parseSheet : List Nat → Except PdError DataFrame)
    (f : UploadedFile) : LoadResult :=
  let name := strToLower f.name
  if strEndsWith name ".csv" then
    match read_csv parseCsv .utf8 f with
    | (.ok df, _) => .ok df
    | (.error .unicodeDecodeError, f1) =>
      match read_csv parseCsv .latin1 (fileSeek f1 0) with
      | (r, _) => liftRead r
    | (.error e, _) => .raised e
  else if strEndsWith name ".xlsx" || strEndsWith name ".xls" then
    liftRead (read_excel .openpyxl parseSheet f)
  else
    .unsupported

/-- A genuine legacy `.xls` workbook: OLE2 magic bytes, fresh stream. -/
def fXls : UploadedFile :=
  ⟨"report.xls", [0xD0, 0xCF, 0x11, 0xE0, 0xA1, 0xB1, 0x1A, 0xE1], 0⟩

/-- A `.csv` upload whose bytes are not valid UTF-8 (0xFF is no lead
byte) but decode fine as Latin-1. -/
def fCsvLatin : UploadedFile :=
  ⟨"data.csv", [0x61, 0x2C, 0x62, 0x0A, 0xFF, 0x2C, 0x32, 0x0A], 0⟩

/-- A CSV-parsing oracle that always raises `ParserError`, for
exercising the both-attempts-fail path. -/
def parseAlwaysFails (_cs : List Nat) : Except PdError DataFrame :=
  .error (.parserError "malformed CSV")

/-!
## Section 2: univariate EDA (`sections/univariate.py`)

`_render_variable` drops the missing values of the chosen column, builds
the `describe(percentiles=[.05,.25,.5,.75,.95])` table extended with
skewness, excess kurtosis and the missing count, and draws the
histogram-plus-boxplot figure.  Statistics whose value involves a square
root (std, skewness, kurtosis) are `StatValue.irr`; pandas' degenerate
NaN results (empty series; `std` below 2, `skew` below 3, `kurt` below 4
observations) are `StatValue.nan` — those thresholds are pandas'
documented behaviour, which the source relies on without guarding. -/

/-- `series.dropna()`: the present values, in order. -/
def dropna (cells : List NumCell) : List ℚ :=
  cells.filterMap id

/-- `series.isna().sum()`: the number of missing cells. -/
def isnaSum (cells : List NumCell) : Nat :=
  (cells.filter Option.isNone).length

/-- Insert into a sorted list (ascending). -/
def insertSorted (x : ℚ) : List ℚ → List ℚ
  | [] => [x]
  | y :: ys => if x ≤ y then x :: y :: ys else y :: insertSorted x ys

/-- Ascending sort, as numpy/pandas sort values before interpolating
quantiles. -/
def sortRats (xs : List ℚ) : List ℚ :=
  xs.foldr insertSorted []

/-- `series.mean()`: NaN on an empty series. -/
def seriesMean (xs : List ℚ) : StatValue :=
  if xs.length = 0 then .nan else .rat (xs.sum / (xs.length : ℚ))

/-- `series.std()` (ddof = 1): NaN below 2 observations. -/
def seriesStd (xs : List ℚ) : StatValue :=
  if xs.length < 2 then .nan else .irr "std" xs

/-- `series.min()`: NaN on an empty series. -/
def seriesMin (xs : List ℚ) : StatValue :=
  match xs with
  | [] => .nan
  | x :: rest => .rat (rest.foldl min x)

/-- `series.max()`: NaN on an empty series. -/
def seriesMax (xs : List ℚ) : StatValue :=
  match xs with
  | [] => .nan
  | x :: rest => .rat (rest.foldl max x)

/-- The `q`-quantile with pandas' linear interpolation
(`h = q * (n - 1)`, value `x_i + (h - i) * (x_(i+1) - x_i)` on the sorted
data): NaN on an empty series. -/
def seriesQuantile (xs : List ℚ) (q : ℚ) : StatValue :=
  match sortRats xs with
  | [] => .nan
  | x0 :: rest =>
    let sorted := x0 :: rest
    let h : ℚ := q * ((sorted.length : ℚ) - 1)
    let i : Nat := h.floor.toNat
    let lo := sorted.getD i x0
    let hi := sorted.getD (i + 1) lo
    .rat (lo + (h - (i : ℚ)) * (hi - lo))

/-- `series.skew()`: pandas returns NaN below 3 observations. -/
def seriesSkew (xs : List ℚ) : StatValue :=
  if xs.length < 3 then .nan else .irr "skew" xs

/-- `series.kurt()` (excess kurtosis): pandas returns NaN below 4
observations. -/
def seriesKurt (xs : List ℚ) : StatValue :=
  if xs.length < 4 then .nan else .irr "kurt" xs

/-- The summary table of `_render_variable`: the
`describe(percentiles=[.05,.25,.5,.75,.95])` rows followed by the three
extra rows the source concatenates (`skewness`, `kurtosis (excess)`,
`missing`). -/
def summaryRows (series : List ℚ) (nMissing : Nat) : List (String × StatValue) :=
  [("count", .rat (series.length : ℚ)),
   ("mean", seriesMean series),
   ("std", seriesStd series),
   ("min", seriesMin series),
   ("5%", seriesQuantile series (5 / 100)),
   ("25%", seriesQuantile series (25 / 100)),
   ("50%", seriesQuantile series (50 / 100)),
   ("75%", seriesQuantile series (75 / 100)),
   ("95%", seriesQuantile series (95 / 100)),
   ("max", seriesMax series),
   ("skewness", seriesSkew series),
   ("kurtosis (excess)", seriesKurt series),
   ("missing", .rat (nMissing : ℚ))]

/-- `sections/univariate.py::_render_variable` on the cells of one
numeric column: the stats table and the histogram-plus-boxplot figure.
The figure item stands for `_histogram_boxplot`, whose
`bins="auto"` histogram and boxplot accept an empty series (numpy falls
back to one bin over `[0, 1)`; matplotlib draws an empty boxplot), so no
branch of the section raises. -/
def render_variable (cells : List NumCell) (label : String) : List DisplayItem :=
  let series := dropna cells
  let nMissing := isnaSum cells
  [.statsTable (summaryRows series nMissing),
   .figure ("histogram+boxplot:" ++ label)]

/-- `sections/univariate.py::render`: header, intro, then the per-column
stats and plots for each selected column.  The selection widget offers
only `numeric_cols`, so the lookup-failure branch is unreachable in the
app. -/
def univariate_render (df : DataFrame) (selected : List String) : List DisplayItem :=
  [.header "2 · Univariate EDA", .markdown "Select one or more variables."] ++
  selected.flatMap (fun col =>
    .subheader col ::
      (match df.getNumeric col with
       | some cells => render_variable cells col
       | none => []))

/-!
## Section 3: bivariate EDA (`sections/bivariate.py`)

`_render_pair` drops rows missing in either column, warns and returns
when fewer than 3 paired observations remain, and otherwise reports
Pearson r, its p-value and n beside the seaborn `regplot`.  The
`corrStats` item stands for the r / p-value / n markdown line (r and the
p-value are irrational-valued; their presence, not their value, is what
the claims speak about), the `figure` item for the scatterplot with
trend line and confidence band. -/

/-- `df[[x, y]].dropna()`: the rows present in both columns. -/
def dropnaPair (xs ys : List NumCell) : List (ℚ × ℚ) :=
  (xs.zip ys).filterMap (fun p =>
    match p with
    | (some a, some b) => some (a, b)
    | _ => none)

/-- `sections/bivariate.py::_render_pair` on the cells of the two
columns. -/
def render_pair (xs ys : List NumCell) (xLabel yLabel : String) : List DisplayItem :=
  let pair := dropnaPair xs ys
  if pair.length < 3 then
    [.warningMsg ("Not enough non-missing data to correlate " ++ xLabel ++ " and " ++ yLabel)]
  else
    [.subheader (xLabel ++ " vs " ++ yLabel),
     .corrStats pair.length,
     .figure ("regplot:" ++ yLabel ++ "~" ++ xLabel)]

/-- `sections/bivariate.py::render`: warns when fewer than 2 numeric
columns exist; otherwise renders each selected (X, Y) pair and returns
the chosen Y column name for the regression section's default formula. -/
def bivariate_render (df : DataFrame) (numColNames : List String)
    (yCol : String) (xCols : List String) : List DisplayItem × Option String :=
  if numColNames.length < 2 then
    ([.header "3 · Bivariate EDA",
      .warningMsg "Need at least 2 numeric columns for bivariate analysis."], none)
  else
    ([.header "3 · Bivariate EDA"] ++
     xCols.flatMap (fun x =>
       match df.getNumeric x, df.getNumeric yCol with
       | some xs, some ys => render_pair xs ys x yCol
       | _, _ => []),
     some yCol)

/-!
## Section 4: OLS regression (`sections/regression.py`)

`_fit_and_display` calls `smf.ols(formula=formula, data=df).fit()` inside
a `try`; any exception becomes `st.error` plus an `st.info` hint and the
function returns without rendering tables; a successful fit renders the
fit-metrics table, the coefficient table, the diagnostics figure and the
text summary.

The formula engine is embedded for the additive fragment
`y ~ x1 + ... + xk` (the only fragment the claims exercise; interaction,
categorical and transform syntax are further patsy features built on the
same term list).  Patsy always prepends an intercept column.  The fit
reproduces statsmodels' default `method="pinv"` exactly over ℚ: the
Moore-Penrose minimum-norm least-squares solution, computed as a
Gauss-Jordan particular solution of the normal equations minus its
component in the design's null space (spanned by the rref null basis).
On a rank-deficient — perfectly multicollinear — design, pinv keeps
every design column with a coefficient, splitting the estimate across
the collinear columns in the minimum-norm way (statsmodels does not drop
columns, contrary to the belief in the source comment at
`regression.py` line 23); the pivot count is the design-matrix rank,
which drives `df_resid = nobs - rank` as statsmodels computes it.  Fit
metrics with irrational values (F, AIC, BIC, standard errors) are
carried by the same display items as the rational ones; the items record
the rational fields the claims name.
-/

/-- Split a character list at every occurrence of `sep`. -/
def splitOnChar (sep : Char) : List Char → List (List Char)
  | [] => [[]]
  | c :: cs =>
    match splitOnChar sep cs with
    | g :: gs => if c = sep then [] :: g :: gs else (c :: g) :: gs
    | [] => [[c]]

/-- Strip leading and trailing spaces. -/
def trimChars (cs : List Char) : List Char :=
  ((cs.dropWhile (fun c => c = ' ')).reverse.dropWhile (fun c => c = ' ')).reverse

/-- Parse an additive patsy formula `y ~ x1 + ... + xk` into the
response name and the predictor names; `none` models a `PatsyError` on
an unparsable formula (no `~`, several `~`, or an empty term). -/
def parseFormula (s : String) : Option (String × List String) :=
  match splitOnChar '~' s.data with
  | [lhs, rhs] =>
    let y := trimChars lhs
    let xs := (splitOnChar '+' rhs).map trimChars
    if y.isEmpty || xs.any List.isEmpty then none
    else some (⟨y⟩, xs.map (fun l => ⟨l⟩))
  | _ => none

/-- The exceptions `smf.ols(...).fit()` raises in the embedded fragment:
an unparsable formula and an unknown column name are `PatsyError`s; a
column that exists but is not numeric is outside the embedded fragment
(real patsy would dummy-code a textual predictor and raise on a textual
response); zero remaining observations — e.g. an all-missing column —
is the `ValueError` statsmodels raises. -/
inductive FitError where
  | patsyUnparsable (formula : String)
  | patsyUnknownColumn (c : String)
  | nonNumericColumn (c : String)
  | valueErrorAllMissing
  deriving Repr, DecidableEq

/-- Does a column of this name exist in the frame? -/
def hasColumn (df : DataFrame) (nm : String) : Bool :=
  df.cols.any (fun c => c.name = nm)

/-- Keep the elements only when all are present. -/
def allSome : List NumCell → Option (List ℚ)
  | [] => some []
  | none :: _ => none
  | some q :: rest => (allSome rest).map (fun l => q :: l)

/-- The rows complete in every given column (patsy's default NA action
drops any row with a missing value in a used column), each row listing
the column values in order. -/
def completeRows (cols : List (List NumCell)) : List (List ℚ) :=
  match cols with
  | [] => []
  | c0 :: _ =>
    (List.range c0.length).filterMap
      (fun i => allSome (cols.map (fun c => c.getD i none)))

/-- One linear equation of the normal system: coefficient list and
right-hand side. -/
abbrev Eqn := List ℚ × ℚ

/-- The `j`-th coefficient of an equation (0 past the end). -/
def coeffAt (e : Eqn) (j : Nat) : ℚ := e.1.getD j 0

/-- Scale an equation by `a`. -/
def scaleEqn (a : ℚ) (e : Eqn) : Eqn := (e.1.map (fun v => a * v), a * e.2)

/-- Subtract equation `f` from equation `e` componentwise. -/
def subEqn (e f : Eqn) : Eqn :=
  (List.zipWith (fun u v => u - v) e.1 f.1, e.2 - f.2)

/-- Eliminate column `j` from `e` using the normalized pivot `p`. -/
def elimWith (j : Nat) (p e : Eqn) : Eqn :=
  subEqn e (scaleEqn (coeffAt e j) p)

/-- Split off the first equation with a nonzero `j`-th coefficient. -/
def findPivotEqn (j : Nat) : List Eqn → Option (Eqn × List Eqn)
  | [] => none
  | e :: es =>
    if coeffAt e j = 0 then
      match findPivotEqn j es with
      | some (p, rest) => some (p, e :: rest)
      | none => none
    else some (e, es)

/-- State of Gauss-Jordan elimination: pivot rows found so far (tagged
with their pivot column) and the not-yet-pivoted equations. -/
structure ElimState where
  pivots : List (Nat × Eqn)
  rest : List Eqn

/-- Process column `j`: if some remaining equation has a nonzero `j`-th
coefficient, normalize it, eliminate column `j` everywhere else and
record it as the pivot for `j`; otherwise column `j` has no pivot (it is
linearly dependent on the earlier columns) and is skipped. -/
def elimColumn (st : ElimState) (j : Nat) : ElimState :=
  match findPivotEqn j st.rest with
  | none => st
  | some (p, others) =>
    let pn := scaleEqn (coeffAt p j)⁻¹ p
    { pivots := st.pivots.map (fun pr => (pr.1, elimWith j pn pr.2)) ++ [(j, pn)],
      rest := others.map (elimWith j pn) }

/-- Gauss-Jordan solve of a consistent `k`-unknown linear system: the
particular solution that sets the free unknowns to 0, together with the
pivot columns.  A subroutine of `pinvSolve` (which corrects the
particular solution to the minimum-norm one); on a full-rank system it
already is the unique solution. -/
def gaussSolve (k : Nat) (eqns : List Eqn) : List ℚ × List Nat :=
  let final := (List.range k).foldl elimColumn ⟨[], eqns⟩
  ((List.range k).map (fun j =>
     match final.pivots.find? (fun pr => pr.1 = j) with
     | some pr => pr.2.2
     | none => 0),
   final.pivots.map Prod.fst)

/-- Dot product of two coefficient lists. -/
def dotRow (a b : List ℚ) : ℚ :=
  (List.zipWith (fun u v => u * v) a b).sum

/-- The rref null-space basis vector for a pivotless (free) column `j`:
1 at `j`, minus the pivot row's `j`-th coefficient at each pivot column,
0 at the other free columns. -/
def nullVector (k : Nat) (pivots : List (Nat × Eqn)) (j : Nat) : List ℚ :=
  (List.range k).map (fun i =>
    if i = j then 1
    else
      match pivots.find? (fun pr => pr.1 = i) with
      | some pr => -(coeffAt pr.2 j)
      | none => 0)

/-- statsmodels' default `method="pinv"` solve of the least-squares
problem, exact over ℚ: the Moore-Penrose minimum-norm solution of the
(always consistent) normal equations, obtained from the Gauss-Jordan
particular solution by subtracting its null-space component (computed by
solving the full-rank Gram system of the rref null basis).  Every
unknown — including perfectly collinear design columns — receives a
coefficient; nothing is dropped.  Also returns the rank (the pivot
count), which statsmodels uses for `df_resid`. -/
def pinvSolve (k : Nat) (eqns : List Eqn) : List ℚ × Nat :=
  let final := (List.range k).foldl elimColumn ⟨[], eqns⟩
  let pivotCols := final.pivots.map Prod.fst
  let beta0 := (List.range k).map (fun j =>
    match final.pivots.find? (fun pr => pr.1 = j) with
    | some pr => pr.2.2
    | none => 0)
  let freeCols := (List.range k).filter (fun j => !(pivotCols.contains j))
  let nullVecs := freeCols.map (nullVector k final.pivots)
  let q := nullVecs.length
  let gram : List Eqn := (List.range q).map (fun a =>
    ((List.range q).map (fun b => dotRow (nullVecs.getD a []) (nullVecs.getD b [])),
     dotRow (nullVecs.getD a []) beta0))
  let z := (gaussSolve q gram).1
  ((List.range k).map (fun j =>
     beta0.getD j 0 -
       ((List.range q).map (fun a => z.getD a 0 * (nullVecs.getD a []).getD j 0)).sum),
   pivotCols.length)

/-- The normal equations `XᵀX β = Xᵀy` of the design rows
(`drows`: design row and response value per observation). -/
def normalEqns (drows : List (List ℚ × ℚ)) (k : Nat) : List Eqn :=
  (List.range k).map (fun i =>
    ((List.range k).map (fun j =>
       (drows.map (fun r => r.1.getD i 0 * r.1.getD j 0)).sum),
     (drows.map (fun r => r.1.getD i 0 * r.2)).sum))

/-- The fitted statsmodels OLS results object — the fields the rendered
report reads.  `params` has one coefficient per design column (the pinv
minimum-norm solution keeps them all); `rank` is the design-matrix rank
the pinv fit computes, and `dfResid = nobs - rank` as statsmodels
computes it. -/
structure OLSModel where
  exogNames : List String
  params : List ℚ
  rank : Nat
  fitted : List ℚ
  resid : List ℚ
  rsquared : ℚ
  rsquaredAdj : ℚ
  nobs : Nat
  dfResid : Nat
  deriving Repr, DecidableEq

/-- Fit `y ~ x1 + ... + xk` once the formula is parsed into its term
names: check the referenced columns, drop incomplete rows, build the
design matrix with the patsy intercept, solve the normal equations, and
assemble the results object.  (When the centered total sum of squares is
0 the division below is ℚ's division by zero; no claim touches that
case.) -/
def ols_from_terms (df : DataFrame) (y : String) (xs : List String) :
    Except FitError OLSModel :=
  let names := y :: xs
  match names.find? (fun nm => !(hasColumn df nm)) with
  | some nm => .error (.patsyUnknownColumn nm)
  | none =>
    match names.find? (fun nm => (df.getNumeric nm).isNone) with
    | some nm => .error (.nonNumericColumn nm)
    | none =>
      let rows := completeRows (names.filterMap df.getNumeric)
      if rows.length = 0 then .error .valueErrorAllMissing
      else
        let k := xs.length + 1
        let drows := rows.map (fun r => ((1 : ℚ) :: r.drop 1, r.headD 0))
        let sol := pinvSolve k (normalEqns drows k)
        let params := sol.1
        let rank := sol.2
        let fitted := drows.map (fun r => dotRow params r.1)
        let actual := drows.map Prod.snd
        let resid := List.zipWith (fun a b => a - b) actual fitted
        let n := drows.length
        let ybar := actual.sum / (n : ℚ)
        let ssr := (resid.map (fun v => v * v)).sum
        let tss := (actual.map (fun v => (v - ybar) * (v - ybar))).sum
        let rsq := 1 - ssr / tss
        .ok { exogNames := "Intercept" :: xs,
              params := params,
              rank := rank,
              fitted := fitted,
              resid := resid,
              rsquared := rsq,
              rsquaredAdj := 1 - (1 - rsq) * ((n : ℚ) - 1) / ((n : ℚ) - (rank : ℚ)),
              nobs := n,
              dfResid := n - rank }

/-- `smf.ols(formula=formula, data=df).fit()`. -/
def smf_ols (formula : String) (df : DataFrame) : Except FitError OLSModel :=
  match parseFormula formula with
  | none => .error (.patsyUnparsable formula)
  | some (y, xs) => ols_from_terms df y xs

/-- The `st.error` text of the failure branch ("Model failed: {exc}"
with the exception's message). -/
def fitErrorMessage : FitError → String
  | .patsyUnparsable f => "Model failed: formula could not be parsed: " ++ f
  | .patsyUnknownColumn c => "Model failed: name is not defined: " ++ c
  | .nonNumericColumn c => "Model failed: column is not numeric in the embedded fragment: " ++ c
  | .valueErrorAllMissing => "Model failed: zero observations left after dropping missing values"

/-- The remediation hint the failure branch shows with `st.info`. -/
def hintMessage : String :=
  "Common causes: typo in column name, column name with spaces, or a column that is all-missing."

/-- What `_fit_and_display` renders for a given fit outcome: on any
exception, the error and the hint and nothing else (the early `return`
precedes every table); on success, the fit-metrics table, the
coefficient table, the diagnostics figure and the text summary. -/
def displayOfFit : Except FitError OLSModel → List DisplayItem
  | .error e => [.errorMsg (fitErrorMessage e), .infoMsg hintMessage]
  | .ok m =>
    [.subheader "Model fit",
     .fitMetricsTable m.rsquared m.rsquaredAdj m.nobs m.dfResid,
     .subheader "Coefficients",
     .coefTable (m.exogNames.zip m.params),
     .subheader "Diagnostics",
     .figure "residuals-vs-fitted+qq",
     .summaryText]

/-- `sections/regression.py::_fit_and_display`: a total function — every
exception of the fit is caught, so the section always returns to the
caller rather than aborting the session. -/
def fit_and_display (df : DataFrame) (formula : String) : List DisplayItem :=
  displayOfFit (smf_ols formula df)

/-- `sections/regression.py::render` with the Fit-model button clicked. -/
def regression_render (df : DataFrame) (formula : String) : List DisplayItem :=
  [.header "4 · OLS Regression"] ++ fit_and_display df formula

/-- The spec scenario frame: columns `age`, `income` with rows
(25, 30000), (30, 40000), (35, 50000), (40, 60000). -/
def dfIncome : DataFrame :=
  ⟨[⟨"age", .numeric [some 25, some 30, some 35, some 40]⟩,
    ⟨"income", .numeric [some 30000, some 40000, some 50000, some 60000]⟩]⟩

/-- A frame with two exactly collinear predictors: `x2 = 2 * x1` and
`y = 1 + 2 * x1`. -/
def dfCollinear : DataFrame :=
  ⟨[⟨"y", .numeric [some 3, some 5, some 7, some 9]⟩,
    ⟨"x1", .numeric [some 1, some 2, some 3, some 4]⟩,
    ⟨"x2", .numeric [some 2, some 4, some 6, some 8]⟩]⟩

/-!
## The app pipeline (`app.py`)

`app.py` calls the sections in order, passing the frame by value; no
section stores or writes it.  Every pandas/patsy call the sections make
(`dropna`, `isna`, column subsetting, `describe`, `skew`, `kurt`,
`pearsonr`, design-matrix construction) returns a fresh object — the
sources never use `inplace=True` and never assign into `df` — so each
section is embedded as a read of the frame, threaded explicitly through
the pipeline state. -/

/-- Decidable equality of `Except` results, for evaluating fit outcomes
at concrete inputs. -/
instance {e a : Type} [DecidableEq e] [DecidableEq a] : DecidableEq (Except e a) := fun x y =>
  match x, y with
  | .ok u, .ok v =>
    if h : u = v then .isTrue (by rw [h]) else .isFalse (fun hc => h (Except.ok.inj hc))
  | .error u, .error v =>
    if h : u = v then .isTrue (by rw [h]) else .isFalse (fun hc => h (Except.error.inj hc))
  | .ok _, .error _ => .isFalse (fun hc => Except.noConfusion hc)
  | .error _, .ok _ => .isFalse (fun hc => Except.noConfusion hc)

/-- One user-triggered section render. -/
inductive SectionCall where
  | univariate (selected : List String)
  | bivariate (numColNames : List String) (yCol : String) (xCols : List String)
  | regression (formula : String)
  deriving Repr, DecidableEq

/-- Run one section on the current frame: the frame it passes on, and
its display output. -/
def runSection (df : DataFrame) : SectionCall → DataFrame × List DisplayItem
  | .univariate sel => (df, univariate_render df sel)
  | .bivariate ncols y xs => (df, (bivariate_render df ncols y xs).1)
  | .regression formula => (df, regression_render df formula)

/-- Run a sequence of section renders, threading the frame. -/
def runSections (df : DataFrame) : List SectionCall → DataFrame × List DisplayItem
  | [] => (df, [])
  | c :: cs =>
    let r := runSection df c
    let rest := runSections r.1 cs
    (rest.1, r.2 ++ rest.2)

end StatApp

/-- C3 counterexample: the claim says an empty `NumericColumnSet` is a
non-fatal warning and the program continues; on the frame `dfNoNumeric`
(one textual column, no numeric ones) `upload.render` instead emits
`st.error` and calls `st.stop()`: the run halts, no warning is shown. -/
theorem c3_counterexample :
    StatApp.UploadResult.continues (StatApp.uploadRender StatApp.dfNoNumeric) = false ∧
    (StatApp.UploadResult.display (StatApp.uploadRender StatApp.dfNoNumeric)).any
      StatApp.DisplayItem.isError = true ∧
    (StatApp.UploadResult.display (StatApp.uploadRender StatApp.dfNoNumeric)).any
      StatApp.DisplayItem.isWarning = false := by
  decide

/-- C3 (amended): whenever the uploaded frame has zero numeric columns,
`upload.render` reports `st.error` and halts the script run with
`st.stop()` — the condition is fatal, not a skipped computation. -/
theorem c3_empty_numeric_halts (df : StatApp.DataFrame)
    (h : StatApp.numeric_cols df = []) :
    StatApp.UploadResult.continues (StatApp.uploadRender df) = false ∧
    (StatApp.UploadResult.display (StatApp.uploadRender df)).any
      StatApp.DisplayItem.isError = true := by
  unfold StatApp.uploadRender
  simp [h, StatApp.UploadResult.continues, StatApp.UploadResult.display,
    StatApp.DisplayItem.isError, List.any]

/-- C3 amended-claim witness at the concrete frame `dfNoNumeric`. -/
theorem c3_empty_numeric_halts_witness :
    StatApp.numeric_cols StatApp.dfNoNumeric = [] ∧
    StatApp.UploadResult.continues (StatApp.uploadRender StatApp.dfNoNumeric) = false := by
  refine ⟨by decide, ?_⟩
  exact (c3_empty_numeric_halts StatApp.dfNoNumeric (by decide)).1

/-- C6: for every CSV-parsing oracle that does not itself raise
`UnicodeDecodeError` on already-decoded text, and every freshly uploaded
`.csv` file: (1) the first read decodes the bytes as UTF-8, and when that
decoding succeeds no Latin-1 retry happens; (2) on a UTF-8 decode failure
the file is re-read exactly once, from the start of the stream, as
Latin-1; (3) when that second attempt also raises, the exception
propagates uncaught — a terminal error shown to the user, no Dataset,
the script run halts. -/
theorem c6_csv_utf8_then_latin1
    (parseCsv parseSheet : List Nat → Except StatApp.PdError StatApp.DataFrame)
    (f : StatApp.UploadedFile)
    (hcsv : StatApp.strEndsWith (StatApp.strToLower f.name) ".csv" = true)
    (hpos : f.pos = 0)
    (hparse : ∀ cs, parseCsv cs ≠ .error .unicodeDecodeError) :
    (∀ cs, StatApp.utf8Decode f.content = some cs →
      StatApp.load_data parseCsv parseSheet f = StatApp.liftRead (parseCsv cs)) ∧
    (StatApp.utf8Decode f.content = none →
      StatApp.load_data parseCsv parseSheet f =
        StatApp.liftRead (parseCsv (StatApp.latin1Decode f.content))) ∧
    (∀ e, StatApp.utf8Decode f.content = none →
      parseCsv (StatApp.latin1Decode f.content) = .error e →
      StatApp.load_data parseCsv parseSheet f = .raised e ∧
      StatApp.LoadResult.producesDataset (StatApp.load_data parseCsv parseSheet f) = false ∧
      StatApp.LoadResult.halts (StatApp.load_data parseCsv parseSheet f) = true) := by
  unfold StatApp.load_data StatApp.read_csv StatApp.decodeBytes StatApp.fileSeek
  rw [hpos]
  simp only [List.drop_zero, hcsv, if_pos]
  refine ⟨?_, ?_, ?_⟩
  · intro cs hdec
    rw [hdec]
    cases hp : parseCsv cs with
    | ok df => simp [Except.bind, hp, StatApp.liftRead]
    | error e =>
      cases e with
      | unicodeDecodeError => exact absurd hp (hparse cs)
      | parserError m => simp [Except.bind, hp, StatApp.liftRead]
      | valueError m => simp [Except.bind, hp, StatApp.liftRead]
      | badZipFile m => simp [Except.bind, hp, StatApp.liftRead]
  · intro hdec
    rw [hdec]
    simp [Except.bind, StatApp.liftRead, StatApp.latin1Decode]
  · intro e hdec hp
    rw [hdec]
    simp only [StatApp.latin1Decode] at hp
    simp [Except.bind, StatApp.liftRead, StatApp.latin1Decode, hp,
      StatApp.LoadResult.producesDataset, StatApp.LoadResult.halts]

/-- C6 witness: on the concrete `.csv` upload `fCsvLatin` (bytes invalid
as UTF-8) with an oracle whose second attempt also raises, ingestion ends
in the uncaught `ParserError`, produces no Dataset, and halts. -/
theorem c6_csv_utf8_then_latin1_witness :
    StatApp.load_data StatApp.parseAlwaysFails StatApp.parseAlwaysFails StatApp.fCsvLatin =
      .raised (.parserError "malformed CSV") ∧
    StatApp.LoadResult.halts
      (StatApp.load_data StatApp.parseAlwaysFails StatApp.parseAlwaysFails StatApp.fCsvLatin) = true := by
  have h := c6_csv_utf8_then_latin1 StatApp.parseAlwaysFails StatApp.parseAlwaysFails
    StatApp.fCsvLatin (by decide) rfl
    (by intro cs; simp [StatApp.parseAlwaysFails])
  have h3 := h.2.2 (.parserError "malformed CSV") (by decide)
    (by simp [StatApp.parseAlwaysFails])
  exact ⟨h3.1, h3.2.2⟩

/-- C4: evaluating ingestion at a genuine legacy `.xls` upload.  The
dispatch does treat `.xls` as supported (the unsupported-file-type branch
is not taken), but the delegate call hard-codes the openpyxl engine,
which cannot open the non-zip OLE2 `.xls` container (as the source's own
comment concedes: "xlrd would be needed for old .xls"), so the call
raises an uncaught exception and no Dataset is returned — contradicting
the claim that ingestion returns a Dataset for `.xls` files. -/
theorem c4_xls_openpyxl_raises
    (parseCsv parseSheet : List Nat → Except StatApp.PdError StatApp.DataFrame) :
    StatApp.load_data parseCsv parseSheet StatApp.fXls =
      .raised (.badZipFile "File is not a zip file") ∧
    StatApp.load_data parseCsv parseSheet StatApp.fXls ≠ .unsupported ∧
    StatApp.LoadResult.producesDataset
      (StatApp.load_data parseCsv parseSheet StatApp.fXls) = false := by
  have hcsv : StatApp.strEndsWith (StatApp.strToLower StatApp.fXls.name) ".csv" = false := by
    decide
  have hxls : (StatApp.strEndsWith (StatApp.strToLower StatApp.fXls.name) ".xlsx" ||
      StatApp.strEndsWith (StatApp.strToLower StatApp.fXls.name) ".xls") = true := by
    decide
  have hzip : StatApp.isZipMagic (List.drop StatApp.fXls.pos StatApp.fXls.content) = false := by
    decide
  simp [StatApp.load_data, StatApp.read_excel, hcsv, hxls, hzip, StatApp.liftRead,
    StatApp.LoadResult.producesDataset]

/-- C8: for every numeric column, the `missing` count that
`_render_variable` computes (`df[col].isna().sum()`) equals the total
number of rows minus the number of non-missing values
(`df[col].dropna()`), and that is exactly the value shown in the
`missing` row of the summary table. -/
theorem c8_missing_count (cells : List StatApp.NumCell) (label : String) :
    StatApp.isnaSum cells = cells.length - (StatApp.dropna cells).length ∧
    (StatApp.summaryRows (StatApp.dropna cells) (StatApp.isnaSum cells)).lookup "missing" =
      some (.rat ((cells.length - (StatApp.dropna cells).length : Nat) : ℚ)) ∧
    .statsTable (StatApp.summaryRows (StatApp.dropna cells) (StatApp.isnaSum cells)) ∈
      StatApp.render_variable cells label := by
  have hsum : StatApp.isnaSum cells + (StatApp.dropna cells).length = cells.length := by
    induction cells with
    | nil => rfl
    | cons c rest ih =>
      cases c with
      | none =>
        simp [StatApp.isnaSum, StatApp.dropna, List.filter_cons, List.filterMap_cons,
          Option.isNone] at ih ⊢
        omega
      | some q =>
        simp [StatApp.isnaSum, StatApp.dropna, List.filter_cons, List.filterMap_cons,
          Option.isNone] at ih ⊢
        omega
  have hmiss : StatApp.isnaSum cells = cells.length - (StatApp.dropna cells).length := by
    omega
  refine ⟨hmiss, ?_, ?_⟩
  · simp [StatApp.summaryRows, List.lookup, hmiss]
  · simp [StatApp.render_variable]

/-- C10: a column whose values are all missing (zero non-missing cells)
still renders completely: the summary table shows count 0, NaN for every
statistic, and the missing row equal to the column length, and the
histogram-plus-boxplot figure is still produced — no branch raises. -/
theorem c10_all_missing_degenerate (cells : List StatApp.NumCell) (label : String)
    (h : StatApp.dropna cells = []) :
    StatApp.render_variable cells label =
      [.statsTable
        [("count", .rat 0), ("mean", .nan), ("std", .nan), ("min", .nan),
         ("5%", .nan), ("25%", .nan), ("50%", .nan), ("75%", .nan), ("95%", .nan),
         ("max", .nan), ("skewness", .nan), ("kurtosis (excess)", .nan),
         ("missing", .rat (cells.length : ℚ))],
       .figure ("histogram+boxplot:" ++ label)] := by
  have hmiss : StatApp.isnaSum cells = cells.length := by
    induction cells with
    | nil => rfl
    | cons c rest ih =>
      cases c with
      | none =>
        simp only [StatApp.dropna, List.filterMap] at h
        simp only [StatApp.isnaSum, StatApp.dropna, List.filter, Option.isNone,
          List.length_cons] at ih ⊢
        exact congrArg Nat.succ (ih h)
      | some q =>
        simp only [StatApp.dropna, List.filterMap, id] at h
        exact absurd h (List.cons_ne_nil _ _)
  unfold StatApp.render_variable
  rw [h, hmiss]
  simp [StatApp.summaryRows, StatApp.seriesMean, StatApp.seriesStd, StatApp.seriesMin,
    StatApp.seriesMax, StatApp.seriesQuantile, StatApp.seriesSkew, StatApp.seriesKurt,
    StatApp.sortRats]

/-- C10 witness: a two-row column that is entirely missing. -/
theorem c10_all_missing_degenerate_witness :
    StatApp.dropna [none, none] = [] ∧
    StatApp.render_variable [none, none] "salary" =
      [.statsTable
        [("count", .rat 0), ("mean", .nan), ("std", .nan), ("min", .nan),
         ("5%", .nan), ("25%", .nan), ("50%", .nan), ("75%", .nan), ("95%", .nan),
         ("max", .nan), ("skewness", .nan), ("kurtosis (excess)", .nan),
         ("missing", .rat 2)],
       .figure "histogram+boxplot:salary"] :=
  ⟨by decide, c10_all_missing_degenerate [none, none] "salary" (by decide)⟩

/-- C5: for every (X, Y) column pair with fewer than 3 rows non-missing
in both columns, `_render_pair` emits exactly one warning — no Pearson
r / p-value / n line and no scatterplot. -/
theorem c5_pair_too_small (xs ys : List StatApp.NumCell) (xLabel yLabel : String)
    (h : (StatApp.dropnaPair xs ys).length < 3) :
    StatApp.render_pair xs ys xLabel yLabel =
      [.warningMsg ("Not enough non-missing data to correlate " ++ xLabel ++ " and " ++ yLabel)] := by
  unfold StatApp.render_pair
  simp [h]

/-- Helper: a successful numeric lookup implies the column exists. -/
theorem hasColumn_of_getNumeric (df : StatApp.DataFrame) (nm : String)
    (cells : List StatApp.NumCell) (h : df.getNumeric nm = some cells) :
    StatApp.hasColumn df nm = true := by
  unfold StatApp.DataFrame.getNumeric at h
  unfold StatApp.hasColumn
  cases hf : df.cols.find? (fun c => c.name = nm) with
  | none => rw [hf] at h; exact absurd h (by simp)
  | some c =>
    have := List.find?_some hf
    have hmem := List.mem_of_find?_eq_some hf
    exact List.any_eq_true.mpr ⟨c, hmem, this⟩

/-- C1: fitting `income ~ age` on the frame with columns `age`, `income`
and rows (25, 30000), (30, 40000), (35, 50000), (40, 60000) succeeds and
yields intercept exactly -20000, slope exactly 2000, and R² exactly 1. -/
theorem c1_income_age_exact_fit :
    (StatApp.smf_ols "income ~ age" StatApp.dfIncome).map
      (fun m => (m.exogNames.zip m.params, m.rsquared)) =
    .ok ([("Intercept", -20000), ("age", 2000)], 1) := by
  with_unfolding_all rfl

/-- C2: whenever the model fit raises — unknown column, unparsable
formula, all-missing column, or any other exception — `_fit_and_display`
renders exactly the descriptive `st.error` and the `st.info` remediation
hint: no fit-metric table, no coefficient table, no diagnostics figure.
Being a total function, it returns to the caller instead of crashing the
session. -/
theorem c2_fit_failure_shows_only_error (df : StatApp.DataFrame) (formula : String)
    (e : StatApp.FitError) (h : StatApp.smf_ols formula df = .error e) :
    StatApp.fit_and_display df formula =
      [.errorMsg (StatApp.fitErrorMessage e), .infoMsg StatApp.hintMessage] ∧
    (StatApp.fit_and_display df formula).all
      (fun it => ! it.isModelOutput) = true := by
  unfold StatApp.fit_and_display
  rw [h]
  exact ⟨rfl, by simp [StatApp.displayOfFit, StatApp.DisplayItem.isModelOutput]⟩

/-- C2 witness: a column typo (`incom` for `income`) on the concrete
frame: the fit raises `PatsyError` and only the error and the hint are
rendered. -/
theorem c2_fit_failure_shows_only_error_witness :
    StatApp.smf_ols "incom ~ age" StatApp.dfIncome =
      .error (.patsyUnknownColumn "incom") ∧
    StatApp.fit_and_display StatApp.dfIncome "incom ~ age" =
      [.errorMsg (StatApp.fitErrorMessage (.patsyUnknownColumn "incom")),
       .infoMsg StatApp.hintMessage] := by
  have h : StatApp.smf_ols "incom ~ age" StatApp.dfIncome =
      .error (.patsyUnknownColumn "incom") := by with_unfolding_all rfl
  exact ⟨h, (c2_fit_failure_shows_only_error StatApp.dfIncome "incom ~ age"
    (.patsyUnknownColumn "incom") h).1⟩

/-- Helper: the pinv solve returns one coefficient per unknown. -/
theorem pinvSolve_fst_length (k : Nat) (eqns : List StatApp.Eqn) :
    (StatApp.pinvSolve k eqns).1.length = k := by
  simp [StatApp.pinvSolve]

/-- Helper: a successful fit names every design column — the patsy
intercept plus each predictor — and carries one coefficient per design
column (the pinv minimum-norm solution keeps them all). -/
theorem ols_from_terms_ok_fields (df : StatApp.DataFrame) (y : String)
    (xs : List String) (m : StatApp.OLSModel)
    (h : StatApp.ols_from_terms df y xs = .ok m) :
    m.exogNames = "Intercept" :: xs ∧ m.params.length = xs.length + 1 := by
  simp only [StatApp.ols_from_terms] at h
  split at h
  · exact absurd h (by simp)
  · split at h
    · exact absurd h (by simp)
    · split at h
      · exact absurd h (by simp)
      · have hm := Except.ok.inj h
        refine ⟨?_, ?_⟩
        · rw [← hm]
        · rw [← hm]
          exact pinvSolve_fst_length _ _

/-- C7 counterexample: the claim says the redundant collinear column is
silently dropped from the design matrix; on `dfCollinear`
(`x2 = 2 * x1`, `y = 1 + 2 * x1`) the pinv fit instead keeps all three
design columns, splitting the estimate across the collinear pair in the
minimum-norm way — Intercept 1, `x1` 2/5, `x2` 4/5 — so the coefficient
table has a row with a nonzero estimate for every column and nothing is
dropped (no coefficient is even zero). -/
theorem c7_counterexample :
    (StatApp.ols_from_terms StatApp.dfCollinear "y" ["x1", "x2"]).map
      (fun m => m.exogNames.zip m.params) =
      .ok [("Intercept", 1), ("x1", 2 / 5), ("x2", 4 / 5)] ∧
    (StatApp.ols_from_terms StatApp.dfCollinear "y" ["x1", "x2"]).map
      (fun m => m.params.any (fun v => v = 0)) = .ok false := by
  constructor
  · with_unfolding_all rfl
  · with_unfolding_all rfl

/-- C7 (amended): with two perfectly collinear predictor columns
(`x2 = c * x1` cellwise) the fit still succeeds and is never treated as
a fatal error — the full output (fit metrics, coefficients, diagnostics,
summary) renders with no error message — but no column is dropped: the
coefficient table names all three design columns and carries a
coefficient for each (statsmodels' pinv keeps collinear columns with a
minimum-norm split).  The collinearity hypothesis scopes the statement
to the claim's scenario; fitting is total on complete, existing columns,
so the conclusion needs no more. -/
theorem c7_collinear_not_fatal (df : StatApp.DataFrame) (y x1 x2 : String)
    (cy cx1 cx2 : List StatApp.NumCell) (c : ℚ)
    (hy : df.getNumeric y = some cy)
    (hx1 : df.getNumeric x1 = some cx1)
    (hx2 : df.getNumeric x2 = some cx2)
    (hcollinear : cx2 = cx1.map (Option.map (fun v => c * v)))
    (hrows : 0 < (StatApp.completeRows [cy, cx1, cx2]).length) :
    (StatApp.ols_from_terms df y [x1, x2]).map (fun m => m.exogNames) =
      .ok ["Intercept", x1, x2] ∧
    (StatApp.ols_from_terms df y [x1, x2]).map (fun m => m.params.length) =
      .ok 3 ∧
    (StatApp.displayOfFit (StatApp.ols_from_terms df y [x1, x2])).all
      (fun it => ! it.isError) = true ∧
    (StatApp.displayOfFit (StatApp.ols_from_terms df y [x1, x2])).any
      (fun it => it.isModelOutput) = true := by
  have hhy := hasColumn_of_getNumeric df y cy hy
  have hhx1 := hasColumn_of_getNumeric df x1 cx1 hx1
  have hhx2 := hasColumn_of_getNumeric df x2 cx2 hx2
  have hlen : ¬ ((StatApp.completeRows [cy, cx1, cx2]).length = 0) :=
    Nat.pos_iff_ne_zero.mp hrows
  have hok : ∃ m, StatApp.ols_from_terms df y [x1, x2] = .ok m := by
    unfold StatApp.ols_from_terms
    simp [List.find?, hhy, hhx1, hhx2, hy, hx1, hx2, List.filterMap, hlen]
  obtain ⟨m, hm⟩ := hok
  obtain ⟨hnames, hplen⟩ := ols_from_terms_ok_fields df y [x1, x2] m hm
  refine ⟨?_, ?_, ?_, ?_⟩
  · rw [hm]; simp [Except.map, hnames]
  · rw [hm]; simp [Except.map, hplen]
  · simp [hm, StatApp.displayOfFit, StatApp.DisplayItem.isError]
  · simp [hm, StatApp.displayOfFit, StatApp.DisplayItem.isModelOutput]

/-- C7 amended-claim witness at the concrete collinear frame
`dfCollinear`: all hypotheses hold with `c = 2` and the fit renders the
full three-column output with no error. -/
theorem c7_collinear_not_fatal_witness :
    (StatApp.ols_from_terms StatApp.dfCollinear "y" ["x1", "x2"]).map
      (fun m => m.exogNames) = .ok ["Intercept", "x1", "x2"] ∧
    (StatApp.displayOfFit (StatApp.ols_from_terms StatApp.dfCollinear "y" ["x1", "x2"])).all
      (fun it => ! it.isError) = true := by
  have h := c7_collinear_not_fatal StatApp.dfCollinear "y" "x1" "x2"
    [some 3, some 5, some 7, some 9] [some 1, some 2, some 3, some 4]
    [some 2, some 4, some 6, some 8] 2
    (by with_unfolding_all rfl) (by with_unfolding_all rfl) (by with_unfolding_all rfl)
    (by with_unfolding_all rfl) (by decide)
  exact ⟨h.1, h.2.2.1⟩

/-- C9: for every frame and every sequence of section renders, the
pipeline state after the sequence is the original frame, and every
section's output is what it computes on that original frame — the
sections derive fresh read-only views and never mutate the Dataset. -/
theorem c9_sections_never_mutate (df : StatApp.DataFrame)
    (calls : List StatApp.SectionCall) :
    StatApp.runSections df calls =
      (df, calls.flatMap (fun c => (StatApp.runSection df c).2)) := by
  induction calls with
  | nil => rfl
  | cons c cs ih =>
    have h1 : (StatApp.runSection df c).1 = df := by
      cases c <;> rfl
    simp only [StatApp.runSections, h1, ih, List.flatMap_cons]

/-- C5 witness: four rows, but only two complete (X, Y) pairs. -/
theorem c5_pair_too_small_witness :
    (StatApp.dropnaPair [some 1, some 2, none, some 4] [some 10, some 20, some 30, none]).length < 3 ∧
    StatApp.render_pair [some 1, some 2, none, some 4] [some 10, some 20, some 30, none] "x" "y" =
      [.warningMsg "Not enough non-missing data to correlate x and y"] := by
  refine ⟨by decide, ?_⟩
  have h := c5_pair_too_small [some 1, some 2, none, some 4] [some 10, some 20, some 30, none]
    "x" "y" (by decide)
  simpa using h
